import Mathlib

/-!
Verification of the ReliAPI Rust example client
(`src/examples/rust_example.rs`) against its specification.

The program is a linear example client: it builds two request payload
shapes (`LLMRequest`, `HTTPRequest`), posts them to a remote proxy
service, deserializes a response envelope (`ReliAPIResponse` with
`Meta`), and prints selected fields. We embed the data model, the serde
serialization and deserialization semantics of the derived instances,
and each of the four demonstration functions as a pure function from the
network outcome to the list of printed lines, where `none` models a
panic of the demonstration (an `unwrap` failure).

JSON numbers are modelled as rationals; Rust `u64` bounds are kept
explicit. `HashMap` payloads are modelled as association lists in
insertion order. The display of a response status is modelled by the
status code number.
-/

namespace ReliAPI

/-- A JSON value, as manipulated through `serde_json::Value`.
Objects are association lists of fields. -/
inductive Json where
  | null : Json
  | bool : Bool → Json
  | num : Rat → Json
  | str : String → Json
  | arr : List Json → Json
  | obj : List (String × Json) → Json

/-- First-match lookup of a field in an object field list, as
`serde_json::Map::get`. -/
def lookupField : List (String × Json) → String → Option Json
  | [], _ => none
  | (k, v) :: rest, key => if k = key then some v else lookupField rest key

/-- Indexing as `Value::get` with a string index: a field of an object, `None` on any
other value. -/
def Json.get (j : Json) (key : String) : Option Json :=
  match j with
  | .obj fs => lookupField fs key
  | _ => none

/-- Reading as `Value::as_array`. -/
def Json.asArray : Json → Option (List Json)
  | .arr xs => some xs
  | _ => none

/-- Reading as `Value::as_str`. -/
def Json.asStr : Json → Option String
  | .str s => some s
  | _ => none

/-- Boolean reading used by serde for a `bool` field. -/
def Json.asBool : Json → Option Bool
  | .bool b => some b
  | _ => none

/-- The numeric payload of a JSON number. -/
def Json.asNum : Json → Option Rat
  | .num q => some q
  | _ => none

/-- The reply-text extraction of `llm_proxy_example`
(lines 161-169): descend `data.choices[0].message.content`, each level
through the fallible accessors, yielding the content only when the whole
path is present and the content is a string. -/
def extract_reply (data : Json) : Option String :=
  match (data.get "choices").bind Json.asArray with
  | some choices =>
    match choices.get? 0 with
    | some choice =>
      match choice.get "message" with
      | some message => (message.get "content").bind Json.asStr
      | none => none
    | none => none
  | none => none

/-- The `LLMRequest` payload (lines 39-54). `messages` is a vector of
string-to-string maps, modelled as association lists in insertion
order; `max_tokens` and `cache` are `u32`, `temperature` an `f64`
modelled as a rational. -/
structure LLMRequest where
  target : String
  messages : List (List (String × String))
  model : String
  max_tokens : Option Nat
  temperature : Option Rat
  stream : Option Bool
  idempotency_key : Option String
  cache : Option Nat

/-- The `HTTPRequest` payload (lines 56-71). -/
structure HTTPRequest where
  target : String
  method : String
  path : String
  headers : Option (List (String × String))
  query : Option (List (String × String))
  body : Option String
  idempotency_key : Option String
  cache : Option Nat

/-- Serialization of one optional field under
`serde(skip_serializing_if = Option.is_none)`: absent fields contribute
no field at all. -/
def optField {α : Type} (name : String) (enc : α → Json) : Option α → List (String × Json)
  | none => []
  | some a => [(name, enc a)]

/-- A string-to-string map serialized as a JSON object. -/
def encStrMap (m : List (String × String)) : Json :=
  Json.obj (m.map (fun p => (p.1, Json.str p.2)))

/-- The derived `Serialize` instance of `LLMRequest`: fields in
declaration order, each `None` optional field skipped. -/
def LLMRequest.serialize (r : LLMRequest) : Json :=
  Json.obj (
    [("target", Json.str r.target),
     ("messages", Json.arr (r.messages.map encStrMap)),
     ("model", Json.str r.model)]
    ++ optField "max_tokens" (fun n => Json.num n) r.max_tokens
    ++ optField "temperature" Json.num r.temperature
    ++ optField "stream" Json.bool r.stream
    ++ optField "idempotency_key" Json.str r.idempotency_key
    ++ optField "cache" (fun n => Json.num n) r.cache)

/-- The derived `Serialize` instance of `HTTPRequest`. -/
def HTTPRequest.serialize (r : HTTPRequest) : Json :=
  Json.obj (
    [("target", Json.str r.target),
     ("method", Json.str r.method),
     ("path", Json.str r.path)]
    ++ optField "headers" encStrMap r.headers
    ++ optField "query" encStrMap r.query
    ++ optField "body" Json.str r.body
    ++ optField "idempotency_key" Json.str r.idempotency_key
    ++ optField "cache" (fun n => Json.num n) r.cache)

/-- The `meta` part of the response envelope (lines 79-87).
`duration_ms` is a `u64`, kept as a bounded natural. -/
structure Meta where
  request_id : String
  cache_hit : Bool
  idempotent_hit : Bool
  cost_usd : Option Rat
  duration_ms : Nat

/-- The response envelope (lines 73-77): opaque `data` plus `meta`. -/
structure ReliAPIResponse where
  data : Json
  meta : Meta

/-- Reading a JSON number as a `u64`: an integer in `[0, 2^64)`. -/
def ratToU64 (q : Rat) : Option Nat :=
  if q.den = 1 ∧ 0 ≤ q.num ∧ q.num < 2 ^ 64 then some q.num.toNat else none

/-- The derived `Deserialize` instance of `Meta`: every field except
`cost_usd` is required; `cost_usd` carries `serde(default)` on an
`Option`, so a missing field or an explicit `null` both give `None`. -/
def Meta.deserialize (j : Json) : Option Meta :=
  match j with
  | .obj fs => do
    let rid ← (lookupField fs "request_id").bind Json.asStr
    let ch ← (lookupField fs "cache_hit").bind Json.asBool
    let ih ← (lookupField fs "idempotent_hit").bind Json.asBool
    let cost ← match lookupField fs "cost_usd" with
      | none => some none
      | some .null => some none
      | some (.num q) => some (some q)
      | some _ => none
    let dq ← (lookupField fs "duration_ms").bind Json.asNum
    let dms ← ratToU64 dq
    pure ⟨rid, ch, ih, cost, dms⟩
  | _ => none

/-- The derived `Deserialize` instance of `ReliAPIResponse`. -/
def ReliAPIResponse.deserialize (j : Json) : Option ReliAPIResponse :=
  match j with
  | .obj fs => do
    let d ← lookupField fs "data"
    let m ← (lookupField fs "meta").bind Meta.deserialize
    pure ⟨d, m⟩
  | _ => none

/-- Configuration `get_reliapi_url` (lines 28-30): the environment is a partial map
from variable names to values; an unset variable falls back to the
public endpoint. -/
def get_reliapi_url (env : String → Option String) : String :=
  (env "RELIAPI_URL").getD "https://reliapi.kikuai.dev"

/-- Configuration `get_api_key` (lines 32-36): primary variable, then fallback
variable, then the placeholder default. -/
def get_api_key (env : String → Option String) : String :=
  (((env "RAPIDAPI_KEY").orElse (fun _ => env "RELIAPI_API_KEY")).getD
    "your-api-key")

/-- Rust formatting of a float with six decimals, on the rational
model: round `q * 10^6` to the nearest integer (the floor of
`q * 10^6 + 1/2`, computed by floor division on numerator and
denominator), then print with the fractional part padded to six
digits. -/
def fmt6 (q : Rat) : String :=
  let n : Int := Int.fdiv (2 * q.num * 1000000 + q.den) (2 * q.den)
  let sign := if n < 0 then "-" else ""
  let m := n.natAbs
  let fracStr := toString (m % 1000000)
  let pad := String.mk (List.replicate (6 - fracStr.length) '0')
  sign ++ toString (m / 1000000) ++ "." ++ pad ++ fracStr

/-- An HTTP response as observed through `reqwest::Response`: the
status code, the raw body text, and the result of parsing the body as
JSON (`none` when the body is not JSON). -/
structure HttpResp where
  status : Nat
  bodyText : String
  bodyJson : Option Json

/-- Success as `StatusCode::is_success`: a 2xx status. -/
def HttpResp.isSuccess (r : HttpResp) : Prop :=
  200 ≤ r.status ∧ r.status < 300

instance (r : HttpResp) : Decidable r.isSuccess := by
  unfold HttpResp.isSuccess; infer_instance

/-- The outcome of `client.post(..).send().await`: a transport-level
error carrying its display text, or a response. -/
inductive Outcome where
  | transportErr : String → Outcome
  | httpResp : HttpResp → Outcome

/-- Parsing as `resp.json` into `ReliAPIResponse`: JSON-parse the body, then
deserialize; fails when either step fails. -/
def parseEnvelope (r : HttpResp) : Option ReliAPIResponse :=
  r.bodyJson.bind ReliAPIResponse.deserialize

/-- Demonstration `http_proxy_example` (lines 90-124). The function yields the list
of printed lines; `none` models a panic of the demonstration (the
`unwrap` on a failed parse of a 2xx body). The display of the status is
modelled by its code. -/
def http_proxy_example (o : Outcome) : Option (List String) :=
  let header := "=== HTTP Proxy Example ==="
  match o with
  | .transportErr e => some [header, "Request error: " ++ e]
  | .httpResp r =>
    if r.isSuccess then
      match parseEnvelope r with
      | some d =>
        some [header,
          "Success: Cache hit: " ++ toString d.meta.cache_hit ++
            ", Request ID: " ++ d.meta.request_id]
      | none => none
    else
      some [header, "Error: " ++ toString r.status ++ " - " ++ r.bodyText]

/-- The reply line of `llm_proxy_example`: printed exactly when the
extraction yields a content string. -/
def replyLines (data : Json) : List String :=
  match extract_reply data with
  | some content => ["Response: " ++ content]
  | none => []

/-- The cost line of `llm_proxy_example` (lines 171-173): printed only
when `cost_usd` is present. -/
def llmCostLines (m : Meta) : List String :=
  match m.cost_usd with
  | some cost => ["Cost: $" ++ fmt6 cost]
  | none => []

/-- Demonstration `llm_proxy_example` (lines 127-184), response handling only (the
posted request does not influence the modelled output). -/
def llm_proxy_example (o : Outcome) : Option (List String) :=
  let header := "\n=== LLM Proxy Example ==="
  match o with
  | .transportErr e => some [header, "Request error: " ++ e]
  | .httpResp r =>
    if r.isSuccess then
      match parseEnvelope r with
      | some d =>
        some ([header] ++ replyLines d.data ++ llmCostLines d.meta ++
          ["Cache hit: " ++ toString d.meta.cache_hit,
           "Request ID: " ++ d.meta.request_id])
      | none => none
    else
      some [header, "Error: " ++ toString r.status ++ " - " ++ r.bodyText]

/-- The request built once by `caching_example` (lines 195-204) and
posted twice: no idempotency key, a one-hour cache TTL. -/
def cachingRequest : LLMRequest :=
  { target := "openai"
    messages := [[("role", "user"),
                  ("content", "What is circuit breaker pattern?")]]
    model := "gpt-4o-mini"
    max_tokens := some 100
    temperature := none
    stream := none
    idempotency_key := none
    cache := some 3600 }

/-- The per-response line of `caching_example`: cache-hit flag and
cost, an absent cost replaced by `0.0` through `unwrap_or`. -/
def cachingLine (m : Meta) : String :=
  "Cache hit: " ++ toString m.cache_hit ++ ", Cost: $" ++
    fmt6 (m.cost_usd.getD 0)

/-- First response handling of `caching_example` (lines 216-222): a
transport error or a non-2xx status falls through silently; a parse
failure on a 2xx body panics. -/
def cachingStep1 (o : Outcome) : Option (List String) :=
  match o with
  | .transportErr _ => some []
  | .httpResp r =>
    if r.isSuccess then
      match parseEnvelope r with
      | some d => some [cachingLine d.meta]
      | none => none
    else some []

/-- Second response handling of `caching_example` (lines 234-245): as
the first, plus the FREE line when the response reports a cache hit. -/
def cachingStep2 (o : Outcome) : Option (List String) :=
  match o with
  | .transportErr _ => some []
  | .httpResp r =>
    if r.isSuccess then
      match parseEnvelope r with
      | some d =>
        some ([cachingLine d.meta] ++
          if d.meta.cache_hit then
            ["✅ Second request was FREE (served from cache)!"]
          else [])
      | none => none
    else some []

/-- Demonstration `caching_example` (lines 186-246): the pair of posted payloads
(both serializations of the one request value) and the printed lines,
`none` on a panic. -/
def caching_example (o1 o2 : Outcome) : List Json × Option (List String) :=
  ([cachingRequest.serialize, cachingRequest.serialize],
   do
     let l1 ← cachingStep1 o1
     let l2 ← cachingStep2 o2
     pure (["\n=== Caching Example ===",
            "First request (will call OpenAI API):"] ++ l1 ++
           ["\nSecond request (same question - should be cached, FREE!):"] ++
           l2))

/-- Demonstration `error_handling_example` (lines 249-290): a 2xx response prints a
success note without parsing the body, so this demonstration never
panics. -/
def error_handling_example (o : Outcome) : Option (List String) :=
  let header := "\n=== Error Handling Example ==="
  match o with
  | .transportErr e => some [header, "Request error: " ++ e]
  | .httpResp r =>
    if r.isSuccess then some [header, "Success!"]
    else
      some [header, "Error: " ++ toString r.status ++ " - " ++ r.bodyText]

/-! ### Helper lemmas -/

theorem asArray_eq_some {j : Json} {xs : List Json} :
    j.asArray = some xs ↔ j = Json.arr xs := by
  cases j <;> simp [Json.asArray]

theorem asStr_eq_some {j : Json} {s : String} :
    j.asStr = some s ↔ j = Json.str s := by
  cases j <;> simp [Json.asStr]

theorem extract_reply_eq (data : Json) :
    extract_reply data =
      ((data.get "choices").bind Json.asArray).bind (fun cs =>
        (cs.get? 0).bind (fun c =>
          (c.get "message").bind (fun m =>
            (m.get "content").bind Json.asStr))) := by
  unfold extract_reply
  cases h1 : (data.get "choices").bind Json.asArray with
  | none => rfl
  | some cs =>
    simp only [Option.some_bind]
    cases h2 : cs.get? 0 with
    | none => rfl
    | some c =>
      simp only [Option.some_bind]
      cases h3 : c.get "message" with
      | none => rfl
      | some m => rfl

theorem extract_reply_eq_some_iff {data : Json} {x : String} :
    extract_reply data = some x ↔
      ∃ cs c m, data.get "choices" = some (Json.arr cs) ∧ cs.get? 0 = some c ∧
        c.get "message" = some m ∧ m.get "content" = some (Json.str x) := by
  rw [extract_reply_eq]
  simp only [Option.bind_eq_some, asArray_eq_some, asStr_eq_some]
  aesop

theorem option_elim_id {α : Type} (o : Option α) : o.elim none some = o := by
  cases o <;> rfl

theorem lookupField_append (fs gs : List (String × Json)) (k : String) :
    lookupField (fs ++ gs) k =
      (lookupField fs k).elim (lookupField gs k) some := by
  induction fs with
  | nil => simp [lookupField]
  | cons p rest ih =>
    obtain ⟨k', v⟩ := p
    by_cases h : k' = k <;> simp [lookupField, h, ih]

theorem lookupField_optField_self {α : Type} (name : String) (enc : α → Json)
    (o : Option α) :
    lookupField (optField name enc o) name = o.map enc := by
  cases o <;> simp [optField, lookupField]

theorem lookupField_optField_ne {α : Type} {name k : String} (h : name ≠ k)
    (enc : α → Json) (o : Option α) :
    lookupField (optField name enc o) k = none := by
  cases o <;> simp [optField, lookupField, h]

theorem mem_optField {α : Type} {p : String × Json} {name : String}
    {enc : α → Json} {o : Option α} :
    p ∈ optField name enc o ↔ ∃ a, o = some a ∧ p = (name, enc a) := by
  cases o <;> simp [optField]

theorem lookupField_ne_null :
    ∀ (fs : List (String × Json)), (∀ p ∈ fs, p.2 ≠ Json.null) → ∀ (k : String),
      lookupField fs k ≠ some Json.null
  | [], _, k => by simp [lookupField]
  | (k', v) :: rest, h, k => by
    simp only [lookupField]
    by_cases hk : k' = k
    · rw [if_pos hk]
      intro hv
      injection hv with hv
      exact h (k', v) (by simp) hv
    · rw [if_neg hk]
      exact lookupField_ne_null rest (fun p hp => h p (List.mem_cons_of_mem _ hp)) k

theorem llm_serialize_get_ne_null (r : LLMRequest) (k : String) :
    (LLMRequest.serialize r).get k ≠ some Json.null := by
  unfold LLMRequest.serialize Json.get
  apply lookupField_ne_null
  intro p hp
  simp only [List.mem_append, List.mem_cons, List.not_mem_nil, or_false,
    mem_optField] at hp
  aesop

theorem http_serialize_get_ne_null (r : HTTPRequest) (k : String) :
    (HTTPRequest.serialize r).get k ≠ some Json.null := by
  unfold HTTPRequest.serialize Json.get
  apply lookupField_ne_null
  intro p hp
  simp only [List.mem_append, List.mem_cons, List.not_mem_nil, or_false,
    mem_optField, encStrMap] at hp
  aesop

/-! ### Claims -/

/-- C1: extraction along the fixed path `data.choices[0].message.content`
yields exactly the content string when every segment of the path is
present with `content` a JSON string, and yields nothing (without
failing; `extract_reply` is a total function) when any segment is
absent: `extract_reply data = some x` holds exactly when `choices` is
an array field of `data` with a first element whose `message` field has
`content` equal to the string `x`. -/
theorem c1_extract_reply_path (data : Json) (x : String) :
    extract_reply data = some x ↔
      ∃ cs c m, data.get "choices" = some (Json.arr cs) ∧ cs.get? 0 = some c ∧
        c.get "message" = some m ∧ m.get "content" = some (Json.str x) :=
  extract_reply_eq_some_iff

/-- C2: for every combination of present and absent optional fields,
the serialized `LLMRequest` and `HTTPRequest` objects carry each
optional field exactly when it is present (an absent field is omitted
from the object entirely, its lookup finding nothing), and no field of
either serialized object is ever an explicit JSON `null`. -/
theorem c2_optional_fields_elided (r : LLMRequest) (hr : HTTPRequest)
    (k : String) :
    (LLMRequest.serialize r).get "max_tokens" =
      r.max_tokens.map (fun n => Json.num n) ∧
    (LLMRequest.serialize r).get "temperature" = r.temperature.map Json.num ∧
    (LLMRequest.serialize r).get "stream" = r.stream.map Json.bool ∧
    (LLMRequest.serialize r).get "idempotency_key" =
      r.idempotency_key.map Json.str ∧
    (LLMRequest.serialize r).get "cache" = r.cache.map (fun n => Json.num n) ∧
    (HTTPRequest.serialize hr).get "headers" = hr.headers.map encStrMap ∧
    (HTTPRequest.serialize hr).get "query" = hr.query.map encStrMap ∧
    (HTTPRequest.serialize hr).get "body" = hr.body.map Json.str ∧
    (HTTPRequest.serialize hr).get "idempotency_key" =
      hr.idempotency_key.map Json.str ∧
    (HTTPRequest.serialize hr).get "cache" =
      hr.cache.map (fun n => Json.num n) ∧
    (LLMRequest.serialize r).get k ≠ some Json.null ∧
    (HTTPRequest.serialize hr).get k ≠ some Json.null := by
  refine ⟨?_, ?_, ?_, ?_, ?_, ?_, ?_, ?_, ?_, ?_,
    llm_serialize_get_ne_null r k, http_serialize_get_ne_null hr k⟩ <;>
    simp [LLMRequest.serialize, HTTPRequest.serialize, Json.get,
      lookupField_append, lookupField, lookupField_optField_self,
      lookupField_optField_ne, option_elim_id]

/-- Witness for C2 at the concrete caching-demonstration request and a
concrete HTTP request: the absent `temperature` is omitted, the present
`max_tokens` is carried, and no field is an explicit `null`. -/
theorem c2_optional_fields_elided_witness :
    (LLMRequest.serialize cachingRequest).get "temperature" = none ∧
    (LLMRequest.serialize cachingRequest).get "max_tokens" =
      some (Json.num 100) ∧
    (LLMRequest.serialize cachingRequest).get "idempotency_key" ≠
      some Json.null := by
  have h := c2_optional_fields_elided cachingRequest
    ⟨"jsonplaceholder", "GET", "/posts/1", none, none, none, none, some 300⟩
    "idempotency_key"
  exact ⟨by rw [h.2.1]; rfl, by rw [h.1]; rfl,
    h.2.2.2.2.2.2.2.2.2.2.1⟩

/-- C3 counterexample: in the caching demonstration, a transport-level
failure is not reported at all: on two transport errors the printed
lines are exactly the three fixed progress lines and contain no
transport error text, contradicting the claim that all four
demonstrations print the transport error text. -/
theorem c3_counterexample_caching_silent :
    (caching_example (.transportErr "connection refused")
      (.transportErr "connection refused")).2 =
      some ["\n=== Caching Example ===",
            "First request (will call OpenAI API):",
            "\nSecond request (same question - should be cached, FREE!):"] := by
  rfl

/-- C3 (amended): the HTTP proxy, LLM proxy, and error-handling
demonstrations handle both error categories by printing and
continuing — a transport failure prints the transport error text and a
non-2xx status prints the status code and raw body; the caching
demonstration also continues (never aborts) on both error categories
but prints nothing for them. -/
theorem c3_error_paths (e : String) (r : HttpResp) (hr : ¬ r.isSuccess) :
    http_proxy_example (.transportErr e) =
      some ["=== HTTP Proxy Example ===", "Request error: " ++ e] ∧
    http_proxy_example (.httpResp r) =
      some ["=== HTTP Proxy Example ===",
            "Error: " ++ toString r.status ++ " - " ++ r.bodyText] ∧
    llm_proxy_example (.transportErr e) =
      some ["\n=== LLM Proxy Example ===", "Request error: " ++ e] ∧
    llm_proxy_example (.httpResp r) =
      some ["\n=== LLM Proxy Example ===",
            "Error: " ++ toString r.status ++ " - " ++ r.bodyText] ∧
    error_handling_example (.transportErr e) =
      some ["\n=== Error Handling Example ===", "Request error: " ++ e] ∧
    error_handling_example (.httpResp r) =
      some ["\n=== Error Handling Example ===",
            "Error: " ++ toString r.status ++ " - " ++ r.bodyText] ∧
    (caching_example (.transportErr e) (.transportErr e)).2 =
      some ["\n=== Caching Example ===",
            "First request (will call OpenAI API):",
            "\nSecond request (same question - should be cached, FREE!):"] ∧
    (caching_example (.httpResp r) (.httpResp r)).2 =
      some ["\n=== Caching Example ===",
            "First request (will call OpenAI API):",
            "\nSecond request (same question - should be cached, FREE!):"] := by
  refine ⟨rfl, ?_, rfl, ?_, rfl, ?_, rfl, ?_⟩ <;>
    simp [http_proxy_example, llm_proxy_example, error_handling_example,
      caching_example, cachingStep1, cachingStep2, hr]

/-- Witness for C3 (amended) at a concrete transport error and a
concrete 500 response. -/
theorem c3_error_paths_witness :
    ¬ (HttpResp.mk 500 "oops" none).isSuccess ∧
    http_proxy_example (.httpResp ⟨500, "oops", none⟩) =
      some ["=== HTTP Proxy Example ===", "Error: " ++ toString 500 ++ " - " ++ "oops"] :=
  ⟨by decide, (c3_error_paths "down" ⟨500, "oops", none⟩ (by decide)).2.1⟩

/-- C5: API-key resolution takes the primary variable `RAPIDAPI_KEY`
when set, else the fallback `RELIAPI_API_KEY` when set, else the
placeholder `your-api-key`; it is a total function of the environment,
with no validation and no failure. -/
theorem c5_api_key_resolution (env : String → Option String) :
    get_api_key env =
      match env "RAPIDAPI_KEY" with
      | some k => k
      | none =>
        match env "RELIAPI_API_KEY" with
        | some k => k
        | none => "your-api-key" := by
  unfold get_api_key
  rcases hk : env "RAPIDAPI_KEY" with _ | k <;>
    rcases hf : env "RELIAPI_API_KEY" with _ | f <;>
      simp [hk, hf]

theorem deserialize_envelope_aux (d : Json) (rid : String) (ch ih : Bool)
    (cost : Option Rat) (q : Rat) (dms : Nat) (hu : ratToU64 q = some dms) :
    ReliAPIResponse.deserialize (Json.obj
      [("data", d),
       ("meta", Json.obj
         ([("request_id", Json.str rid), ("cache_hit", Json.bool ch),
           ("idempotent_hit", Json.bool ih)]
          ++ optField "cost_usd" Json.num cost
          ++ [("duration_ms", Json.num q)]))]) =
      some ⟨d, rid, ch, ih, cost, dms⟩ := by
  cases cost <;>
    simp [ReliAPIResponse.deserialize, Meta.deserialize, optField,
      lookupField, Json.asStr, Json.asBool, Json.asNum, hu]

theorem ratToU64_natCast (dms : Nat) (hdms : dms < 2 ^ 64) :
    ratToU64 (dms : Rat) = some dms := by
  have hden : ((dms : Rat)).den = 1 := Rat.den_natCast dms
  have hnum : ((dms : Rat)).num = (dms : Int) := Rat.num_natCast dms
  have hcond : ((dms : Rat)).den = 1 ∧ 0 ≤ ((dms : Rat)).num ∧
      ((dms : Rat)).num < 2 ^ 64 := by
    refine ⟨hden, ?_, ?_⟩ <;> rw [hnum]
    · exact Int.natCast_nonneg dms
    · exact_mod_cast hdms
  rw [ratToU64, if_pos hcond, hnum]
  simp

/-- C4: deserializing any JSON matching the envelope shape (object with
`data` and `meta`, the latter carrying `request_id`, `cache_hit`,
`idempotent_hit`, an optional `cost_usd`, and a `u64` `duration_ms`)
recovers every field exactly as given, `cost_usd` as `none` when
absent. -/
theorem c4_envelope_deserialization (d : Json) (rid : String) (ch ih : Bool)
    (cost : Option Rat) (dms : Nat) (hdms : dms < 2 ^ 64) :
    ReliAPIResponse.deserialize (Json.obj
      [("data", d),
       ("meta", Json.obj
         ([("request_id", Json.str rid), ("cache_hit", Json.bool ch),
           ("idempotent_hit", Json.bool ih)]
          ++ optField "cost_usd" Json.num cost
          ++ [("duration_ms", Json.num dms)]))]) =
      some ⟨d, rid, ch, ih, cost, dms⟩ :=
  deserialize_envelope_aux d rid ch ih cost (dms : Rat) dms
    (ratToU64_natCast dms hdms)

/-- Witness for C4 at a concrete envelope with `cost_usd` present. -/
theorem c4_envelope_deserialization_witness :
    (5 : Nat) < 2 ^ 64 ∧
    ReliAPIResponse.deserialize (Json.obj
      [("data", Json.null),
       ("meta", Json.obj
         ([("request_id", Json.str "req-1"), ("cache_hit", Json.bool true),
           ("idempotent_hit", Json.bool false)]
          ++ optField "cost_usd" Json.num (some (1 / 500))
          ++ [("duration_ms", Json.num 5)]))]) =
      some ⟨Json.null, "req-1", true, false, some (1 / 500), 5⟩ :=
  ⟨by norm_num,
   c4_envelope_deserialization Json.null "req-1" true false (some (1 / 500)) 5
     (by norm_num)⟩

/-- C7: a 2xx response whose body does not deserialize to the envelope
shape (here: a body that is the JSON string `"hi"`) makes the HTTP
proxy demonstration and the LLM proxy demonstration abort (the `unwrap`
on the parse result fails, modelled as `none`) rather than recover. -/
theorem c7_parse_failure_aborts :
    http_proxy_example (.httpResp ⟨200, "hi", some (Json.str "hi")⟩) = none ∧
    llm_proxy_example (.httpResp ⟨200, "hi", some (Json.str "hi")⟩) = none := by
  constructor <;> rfl

/-- C6: the caching demonstration posts the identical serialized
request twice (the one request value, with no idempotency key and the
same cache TTL, serialized both times), and on two 2xx envelope
responses prints the cache-hit flag and cost of each response as its
own line, merging or suppressing neither. -/
theorem c6_caching_two_calls (r1 r2 : HttpResp) (e1 e2 : ReliAPIResponse)
    (h1 : r1.isSuccess) (h2 : r2.isSuccess)
    (p1 : parseEnvelope r1 = some e1) (p2 : parseEnvelope r2 = some e2) :
    (caching_example (.httpResp r1) (.httpResp r2)).1 =
      [LLMRequest.serialize cachingRequest,
       LLMRequest.serialize cachingRequest] ∧
    cachingRequest.idempotency_key = none ∧
    (caching_example (.httpResp r1) (.httpResp r2)).2 =
      some (["\n=== Caching Example ===",
             "First request (will call OpenAI API):",
             cachingLine e1.meta,
             "\nSecond request (same question - should be cached, FREE!):",
             cachingLine e2.meta] ++
            (if e2.meta.cache_hit then
              ["✅ Second request was FREE (served from cache)!"]
            else [])) := by
  refine ⟨rfl, rfl, ?_⟩
  simp [caching_example, cachingStep1, cachingStep2, h1, h2, p1, p2]

/-- Witness for C6: two concrete 2xx responses, the first a cache miss
costing 0.002, the second a cache hit costing 0; both lines appear,
distinctly, with the FREE note. -/
theorem c6_caching_two_calls_witness :
    (caching_example
      (.httpResp ⟨200, "", some (Json.obj
        [("data", Json.null),
         ("meta", Json.obj
           [("request_id", Json.str "r1"), ("cache_hit", Json.bool false),
            ("idempotent_hit", Json.bool false),
            ("cost_usd", Json.num (mkRat 1 500)),
            ("duration_ms", Json.num 5)])])⟩)
      (.httpResp ⟨200, "", some (Json.obj
        [("data", Json.null),
         ("meta", Json.obj
           [("request_id", Json.str "r2"), ("cache_hit", Json.bool true),
            ("idempotent_hit", Json.bool false),
            ("cost_usd", Json.num 0),
            ("duration_ms", Json.num 7)])])⟩)).2 =
      some ["\n=== Caching Example ===",
            "First request (will call OpenAI API):",
            "Cache hit: false, Cost: $0.002000",
            "\nSecond request (same question - should be cached, FREE!):",
            "Cache hit: true, Cost: $0.000000",
            "✅ Second request was FREE (served from cache)!"] := by
  have h := c6_caching_two_calls
    ⟨200, "", some (Json.obj
      [("data", Json.null),
       ("meta", Json.obj
         [("request_id", Json.str "r1"), ("cache_hit", Json.bool false),
          ("idempotent_hit", Json.bool false),
          ("cost_usd", Json.num (mkRat 1 500)),
          ("duration_ms", Json.num 5)])])⟩
    ⟨200, "", some (Json.obj
      [("data", Json.null),
       ("meta", Json.obj
         [("request_id", Json.str "r2"), ("cache_hit", Json.bool true),
          ("idempotent_hit", Json.bool false),
          ("cost_usd", Json.num 0),
          ("duration_ms", Json.num 7)])])⟩
    ⟨Json.null, "r1", false, false, some (mkRat 1 500), 5⟩
    ⟨Json.null, "r2", true, false, some 0, 7⟩
    (by decide) (by decide) rfl rfl
  rw [h.2.2]
  rfl

/-- C8: the reply-text extraction is total over every possible JSON
value of the `data` field (it is a function, so it cannot fail), the
demonstration prints at most one reply line, and a reply line carries
exactly the content string at the end of the fully present path. -/
theorem c8_extraction_safe (data : Json) :
    (replyLines data).length ≤ 1 ∧
    ∀ l, l ∈ replyLines data →
      ∃ cs c m s, l = "Response: " ++ s ∧
        data.get "choices" = some (Json.arr cs) ∧ cs.get? 0 = some c ∧
        c.get "message" = some m ∧ m.get "content" = some (Json.str s) := by
  cases h : extract_reply data with
  | none => simp [replyLines, h]
  | some s =>
    constructor
    · simp [replyLines, h]
    · intro l hl
      simp only [replyLines, h, List.mem_singleton] at hl
      obtain ⟨cs, c, m, h1, h2, h3, h4⟩ := extract_reply_eq_some_iff.mp h
      exact ⟨cs, c, m, s, hl, h1, h2, h3, h4⟩

/-- Witness for C8 at a concrete `data` value holding the full path
with content `"hi"`. -/
theorem c8_extraction_safe_witness :
    ∃ cs c m s, "Response: hi" = "Response: " ++ s ∧
      (Json.obj [("choices", Json.arr
        [Json.obj [("message", Json.obj
          [("content", Json.str "hi")])]])]).get "choices" =
        some (Json.arr cs) ∧
      cs.get? 0 = some c ∧ c.get "message" = some m ∧
      m.get "content" = some (Json.str s) :=
  (c8_extraction_safe (Json.obj [("choices", Json.arr
    [Json.obj [("message", Json.obj
      [("content", Json.str "hi")])]])])).2
    "Response: hi" (by simp [replyLines, extract_reply, Json.get,
      lookupField, Json.asArray, Json.asStr])

/-- C9: the `idempotent_hit` flag is deserialized but never read: all
four demonstrations produce identical output on two responses whose
envelopes agree on everything except `idempotent_hit`. -/
theorem c9_idempotent_hit_unused (r r' : HttpResp) (e e' : ReliAPIResponse)
    (hp : parseEnvelope r = some e) (hp' : parseEnvelope r' = some e')
    (hst : r.status = r'.status) (htxt : r.bodyText = r'.bodyText)
    (hdata : e.data = e'.data) (hrid : e.meta.request_id = e'.meta.request_id)
    (hch : e.meta.cache_hit = e'.meta.cache_hit)
    (hcost : e.meta.cost_usd = e'.meta.cost_usd)
    (hdur : e.meta.duration_ms = e'.meta.duration_ms) :
    http_proxy_example (.httpResp r) = http_proxy_example (.httpResp r') ∧
    llm_proxy_example (.httpResp r) = llm_proxy_example (.httpResp r') ∧
    (caching_example (.httpResp r) (.httpResp r)).2 =
      (caching_example (.httpResp r') (.httpResp r')).2 ∧
    error_handling_example (.httpResp r) =
      error_handling_example (.httpResp r') := by
  have hsucc : r.isSuccess ↔ r'.isSuccess := by
    unfold HttpResp.isSuccess
    rw [hst]
  by_cases hs : r'.isSuccess
  · have hs1 : r.isSuccess := hsucc.mpr hs
    refine ⟨?_, ?_, ?_, ?_⟩ <;>
      simp [http_proxy_example, llm_proxy_example, caching_example,
        cachingStep1, cachingStep2, error_handling_example, hp, hp', hs, hs1,
        cachingLine, replyLines, llmCostLines, hdata, hrid, hch, hcost, hdur]
  · have hs1 : ¬ r.isSuccess := fun h => hs (hsucc.mp h)
    refine ⟨?_, ?_, ?_, ?_⟩ <;>
      simp [http_proxy_example, llm_proxy_example, caching_example,
        cachingStep1, cachingStep2, error_handling_example, hs, hs1, hst, htxt]

/-- Witness for C9 at two concrete 2xx responses whose bodies differ
only in the `idempotent_hit` flag. -/
theorem c9_idempotent_hit_unused_witness :
    http_proxy_example (.httpResp ⟨200, "", some (Json.obj
      [("data", Json.null),
       ("meta", Json.obj
         [("request_id", Json.str "r"), ("cache_hit", Json.bool false),
          ("idempotent_hit", Json.bool false),
          ("duration_ms", Json.num 3)])])⟩) =
    http_proxy_example (.httpResp ⟨200, "", some (Json.obj
      [("data", Json.null),
       ("meta", Json.obj
         [("request_id", Json.str "r"), ("cache_hit", Json.bool false),
          ("idempotent_hit", Json.bool true),
          ("duration_ms", Json.num 3)])])⟩) :=
  (c9_idempotent_hit_unused
    ⟨200, "", some (Json.obj
      [("data", Json.null),
       ("meta", Json.obj
         [("request_id", Json.str "r"), ("cache_hit", Json.bool false),
          ("idempotent_hit", Json.bool false),
          ("duration_ms", Json.num 3)])])⟩
    ⟨200, "", some (Json.obj
      [("data", Json.null),
       ("meta", Json.obj
         [("request_id", Json.str "r"), ("cache_hit", Json.bool false),
          ("idempotent_hit", Json.bool true),
          ("duration_ms", Json.num 3)])])⟩
    ⟨Json.null, "r", false, false, none, 3⟩
    ⟨Json.null, "r", false, true, none, 3⟩
    rfl rfl rfl rfl rfl rfl rfl rfl rfl).1

/-- C10: with `cost_usd` absent, the caching demonstration substitutes
`0.0` and prints the cost as `$0.000000` — the same line as for a true
zero cost — while the LLM proxy demonstration prints no cost line at
all. -/
theorem c10_absent_cost (m : Meta) (hm : m.cost_usd = none) :
    cachingLine m =
      "Cache hit: " ++ toString m.cache_hit ++ ", Cost: $0.000000" ∧
    cachingLine m = cachingLine { m with cost_usd := some 0 } ∧
    llmCostLines m = [] := by
  have h0 : fmt6 0 = "0.000000" := by decide
  refine ⟨?_, ?_, ?_⟩
  · simp only [cachingLine, hm, Option.getD_none, h0, String.append_assoc]
    rfl
  · simp [cachingLine, hm]
  · simp [llmCostLines, hm]

/-- Witness for C10 at a concrete metadata record with no cost. -/
theorem c10_absent_cost_witness :
    cachingLine ⟨"r", true, false, none, 3⟩ =
      "Cache hit: true, Cost: $0.000000" ∧
    llmCostLines ⟨"r", true, false, none, 3⟩ = [] := by
  have h := c10_absent_cost ⟨"r", true, false, none, 3⟩ rfl
  refine ⟨?_, h.2.2⟩
  rw [h.1]
  rfl

end ReliAPI
